import Mathlib

/-!
Verification of the Si7021 hygrometer/thermometer driver (src/src/lib.rs).

The driver is embedded shallowly: the external bus transport (`I2CDevice`
trait) becomes a record of explicit state-passing functions returning
`Except`, machine bytes become `Fin 256`, 16-bit raw readings become `Nat`,
and the `f32` conversion arithmetic is modelled by exact rational arithmetic
(every constant in the formulas is taken at its literal value; the clamp
bounds 0 and 100 and the inputs are exactly representable, so the properties
proved here are invariant under the float rounding).
-/

/-- Model of the `I2CDevice` transport capability: a state type `σ` with a
byte-sequence write and a two-byte read (the driver only ever reads into a
fixed two-byte buffer), each either succeeding with the next device state or
failing with a transport error `ε`. -/
structure I2CDevice (σ ε : Type) where
  write : σ → List Nat → Except ε σ
  read2 : σ → Except ε (σ × Fin 256 × Fin 256)

/-- Standard I²C address of the Si7021: `0x40` (`SI7021_I2C_ADDRESS`). -/
def SI7021_I2C_ADDRESS : Nat := 0x40

/-- Command byte `MEASURE_RELATIVE_HUMIDITY = 0xE5`. -/
def MEASURE_RELATIVE_HUMIDITY : Nat := 0xE5

/-- Command byte `MEASURE_TEMPERATURE = 0xE3`. -/
def MEASURE_TEMPERATURE : Nat := 0xE3

/-- Command byte `READ_TEMPERATURE = 0xE0`. -/
def READ_TEMPERATURE : Nat := 0xE0

/-- The driver struct `Si7021<T>`: wraps exactly one transport state. -/
structure Si7021 (σ : Type) where
  device : σ

/-- Embedding of `Si7021::new`: pure wrapping of the device handle. -/
def Si7021.new {σ : Type} (device : σ) : Si7021 σ :=
  { device := device }

/-- Embedding of `BigEndian::read_u16` on a two-byte buffer. -/
def bigEndianRead16 (b0 b1 : Fin 256) : Nat :=
  256 * b0.val + b1.val

/-- Embedding of the private method `Si7021::read_word`: write the single
command byte, read two bytes into the buffer, decode them big-endian.  The
`?` operator of the source becomes an explicit match on `Except`. -/
def Si7021.read_word {σ ε : Type} (impl : I2CDevice σ ε) (self : Si7021 σ)
    (command : Nat) : Except ε (Si7021 σ × Nat) :=
  match impl.write self.device [command] with
  | Except.error e => Except.error e
  | Except.ok d1 =>
    match impl.read2 d1 with
    | Except.error e => Except.error e
    | Except.ok (d2, b0, b1) =>
        Except.ok (Si7021.new d2, bigEndianRead16 b0 b1)

/-- Embedding of `calculate_relative_humidity`:
`125.0 * raw as f32 / 65536.0 - 6.0`, then `.max(0.0).min(100.0)`. -/
def calculate_relative_humidity (raw_humidity : Nat) : ℚ :=
  let relative_humidity : ℚ := 125 * (raw_humidity : ℚ) / 65536 - 6
  min (max relative_humidity 0) 100

/-- Embedding of `calculate_temperature`:
`175.72 * raw as f32 / 65536.0 - 46.85`, with no clamp. -/
def calculate_temperature (raw_temperature : Nat) : ℚ :=
  (175.72 : ℚ) * (raw_temperature : ℚ) / 65536 - (46.85 : ℚ)

/-- Embedding of `Si7021::last_temperature`. -/
def Si7021.last_temperature {σ ε : Type} (impl : I2CDevice σ ε)
    (self : Si7021 σ) : Except ε (Si7021 σ × ℚ) :=
  match Si7021.read_word impl self READ_TEMPERATURE with
  | Except.error e => Except.error e
  | Except.ok (self1, raw_temperature) =>
      Except.ok (self1, calculate_temperature raw_temperature)

/-- Embedding of `Hygrometer::relative_humidity` for `Si7021`. -/
def Si7021.relative_humidity {σ ε : Type} (impl : I2CDevice σ ε)
    (self : Si7021 σ) : Except ε (Si7021 σ × ℚ) :=
  match Si7021.read_word impl self MEASURE_RELATIVE_HUMIDITY with
  | Except.error e => Except.error e
  | Except.ok (self1, raw_humidity) =>
      Except.ok (self1, calculate_relative_humidity raw_humidity)

/-- Embedding of `Thermometer::temperature_celsius` for `Si7021`. -/
def Si7021.temperature_celsius {σ ε : Type} (impl : I2CDevice σ ε)
    (self : Si7021 σ) : Except ε (Si7021 σ × ℚ) :=
  match Si7021.read_word impl self MEASURE_TEMPERATURE with
  | Except.error e => Except.error e
  | Except.ok (self1, raw_temperature) =>
      Except.ok (self1, calculate_temperature raw_temperature)

/-- Specification-side definition for the refinement claim, written from the
spec's words rather than the source: the shared command/response primitive
(write a single command byte, then read exactly two response bytes, then
interpret those two bytes as one big-endian unsigned 16-bit integer),
composed with a pure conversion function. -/
def measurementSpec {σ ε : Type} (impl : I2CDevice σ ε) (cmd : Nat)
    (conv : Nat → ℚ) (self : Si7021 σ) : Except ε (Si7021 σ × ℚ) :=
  (impl.write self.device [cmd]).bind fun d1 =>
    (impl.read2 d1).bind fun r =>
      Except.ok (Si7021.new r.1, conv (256 * r.2.1.val + r.2.2.val))

/-- Observable bus event of a recording stub transport: a write of a byte
sequence, or a read of a requested number of bytes. -/
inductive BusEvent : Type where
  | write (bytes : List Nat) : BusEvent
  | read (count : Nat) : BusEvent
deriving DecidableEq, Repr

/-- State of the recording stub transport: the log of bus events so far, a
programmable outcome for the next write (`none` means success) and a
programmable outcome for reads. -/
structure StubState (ε : Type) where
  log : List BusEvent
  writeOutcome : Option ε
  readOutcome : Except ε (Fin 256 × Fin 256)

/-- The recording stub transport: logs every write and every (two-byte) read
and returns the programmed outcomes. -/
def stubDevice (ε : Type) : I2CDevice (StubState ε) ε where
  write s bs :=
    match s.writeOutcome with
    | some e => Except.error e
    | none => Except.ok { s with log := s.log ++ [BusEvent.write bs] }
  read2 s :=
    match s.readOutcome with
    | Except.error e => Except.error e
    | Except.ok b =>
        Except.ok ({ s with log := s.log ++ [BusEvent.read 2] }, b.1, b.2)

/-- Initial stub state with an empty log, a succeeding write and a programmed
two-byte response. -/
def stubInit {ε : Type} (b : Fin 256 × Fin 256) : StubState ε :=
  { log := [], writeOutcome := none, readOutcome := Except.ok b }

/-- Keep only the write events of a bus log, with their payloads. -/
def writesOf : List BusEvent → List (List Nat)
  | [] => []
  | BusEvent.write bs :: rest => bs :: writesOf rest
  | BusEvent.read _ :: rest => writesOf rest

/-- The bus log recorded in a successfully returned driver state, if any. -/
def finalLog {ε : Type} (r : Except ε (Si7021 (StubState ε) × ℚ)) :
    Option (List BusEvent) :=
  match r with
  | Except.error _ => none
  | Except.ok (s, _) => some s.device.log

/-- Drop the returned driver state, keeping only the measurement value or
the transport error. -/
def resultValue {σ ε : Type} (r : Except ε (Si7021 σ × ℚ)) : Except ε ℚ :=
  match r with
  | Except.error e => Except.error e
  | Except.ok (_, v) => Except.ok v

/-- Two transports (possibly over different state types) return identical
outcomes for the exchange at command byte `c`: the writes fail with the same
error, or both succeed and then the reads fail with the same error or both
return the same two response bytes. -/
def sameOutcomes {σ1 σ2 ε : Type} (impl1 : I2CDevice σ1 ε) (d1 : σ1)
    (impl2 : I2CDevice σ2 ε) (d2 : σ2) (c : Nat) : Prop :=
  (∃ e, impl1.write d1 [c] = Except.error e ∧
        impl2.write d2 [c] = Except.error e) ∨
  (∃ t1 t2, impl1.write d1 [c] = Except.ok t1 ∧
            impl2.write d2 [c] = Except.ok t2 ∧
    ((∃ e, impl1.read2 t1 = Except.error e ∧
           impl2.read2 t2 = Except.error e) ∨
     (∃ u1 u2 b, impl1.read2 t1 = Except.ok (u1, b) ∧
                 impl2.read2 t2 = Except.ok (u2, b))))

/-- Helper: `read_word` returns the write's error when the write fails. -/
theorem read_word_write_error {σ ε : Type} (impl : I2CDevice σ ε)
    (self : Si7021 σ) (c : Nat) (e : ε)
    (h : impl.write self.device [c] = Except.error e) :
    Si7021.read_word impl self c = Except.error e := by
  simp [Si7021.read_word, h]

/-- Helper: `read_word` returns the read's error when the write succeeds and
the read fails. -/
theorem read_word_read_error {σ ε : Type} (impl : I2CDevice σ ε)
    (self : Si7021 σ) (c : Nat) (d1 : σ) (e : ε)
    (h1 : impl.write self.device [c] = Except.ok d1)
    (h2 : impl.read2 d1 = Except.error e) :
    Si7021.read_word impl self c = Except.error e := by
  simp [Si7021.read_word, h1, h2]

/-- C1: for every 16-bit raw humidity code `r`, `calculate_relative_humidity`
computes `125 * r / 65536 - 6` and clamps the result into `[0, 100]`, so the
returned value always lies in `[0, 100]`; in particular it maps `0` to `0`. -/
theorem humidity_clamp_invariant :
    (∀ r : Nat, r ≤ 65535 →
      0 ≤ calculate_relative_humidity r ∧ calculate_relative_humidity r ≤ 100) ∧
    calculate_relative_humidity 0 = 0 := by
  constructor
  · intro r _
    unfold calculate_relative_humidity
    exact ⟨le_min (le_max_right _ _) (by norm_num), min_le_right _ _⟩
  · unfold calculate_relative_humidity
    norm_num

/-- C1 witness at the concrete raw code 3. -/
theorem humidity_clamp_invariant_witness :
    0 ≤ calculate_relative_humidity 3 ∧ calculate_relative_humidity 3 ≤ 100 :=
  humidity_clamp_invariant.1 3 (by norm_num)

/-- C2: `calculate_temperature` is the unclamped linear map
`175.72 * r / 65536 - 46.85`: it sends `0` to `-46.85`, and the synthetic
raw code `65535` yields `175.72 * 65535 / 65536 - 46.85`, a value above the
typical device range bound `125`, and it is still returned unclamped. -/
theorem temperature_no_clamp :
    calculate_temperature 0 = (-46.85 : ℚ) ∧
    (∀ r : Nat, calculate_temperature r =
      (175.72 : ℚ) * (r : ℚ) / 65536 - (46.85 : ℚ)) ∧
    calculate_temperature 65535 =
      (175.72 : ℚ) * 65535 / 65536 - (46.85 : ℚ) ∧
    (125 : ℚ) < calculate_temperature 65535 := by
  refine ⟨?_, fun r => rfl, ?_, ?_⟩
  · unfold calculate_temperature
    norm_num
  · unfold calculate_temperature
    norm_num
  · unfold calculate_temperature
    norm_num

/-- C9: both conversion functions are monotonically non-decreasing in the
raw code; the clamp (max with 0, then min with 100) preserves the
monotonicity of the underlying linear formula. -/
theorem conversions_monotone (r1 r2 : Nat) (h : r1 ≤ r2) :
    calculate_relative_humidity r1 ≤ calculate_relative_humidity r2 ∧
    calculate_temperature r1 ≤ calculate_temperature r2 := by
  have hc : (r1 : ℚ) ≤ (r2 : ℚ) := by exact_mod_cast h
  constructor
  · unfold calculate_relative_humidity
    refine min_le_min (max_le_max ?_ le_rfl) le_rfl
    have hlin : 125 * (r1 : ℚ) / 65536 ≤ 125 * (r2 : ℚ) / 65536 := by gcongr
    linarith
  · unfold calculate_temperature
    have hlin : (175.72 : ℚ) * (r1 : ℚ) / 65536 ≤
        (175.72 : ℚ) * (r2 : ℚ) / 65536 := by gcongr
    linarith


/-- C9 witness at the concrete raw codes 0 and 1. -/
theorem conversions_monotone_witness :
    calculate_relative_humidity 0 ≤ calculate_relative_humidity 1 ∧
    calculate_temperature 0 ≤ calculate_temperature 1 :=
  conversions_monotone 0 1 (by norm_num)

/-- C3: run against the recording stub with any programmed two-byte
response, each public measurement operation writes exactly its one fixed
command byte: `relative_humidity` writes `0xE5`, `temperature_celsius`
writes `0xE3`, and `last_temperature` writes `0xE0`. -/
theorem command_bytes_per_operation (ε : Type) (b : Fin 256 × Fin 256) :
    (finalLog (Si7021.relative_humidity (stubDevice ε)
        (Si7021.new (stubInit b)))).map writesOf =
      some [[MEASURE_RELATIVE_HUMIDITY]] ∧
    (finalLog (Si7021.temperature_celsius (stubDevice ε)
        (Si7021.new (stubInit b)))).map writesOf =
      some [[MEASURE_TEMPERATURE]] ∧
    (finalLog (Si7021.last_temperature (stubDevice ε)
        (Si7021.new (stubInit b)))).map writesOf =
      some [[READ_TEMPERATURE]] :=
  ⟨rfl, rfl, rfl⟩

/-- C4: run against the recording stub, each measurement operation performs
exactly one one-byte command write followed by exactly one two-byte read, in
that order, before its result is produced; and when the two-byte response is
missing (the read fails), the operation is an error, never a degraded
result. -/
theorem single_write_then_read (ε : Type) (b : Fin 256 × Fin 256) :
    Si7021.relative_humidity (stubDevice ε) (Si7021.new (stubInit b)) =
      Except.ok (Si7021.new
        { log := [BusEvent.write [MEASURE_RELATIVE_HUMIDITY], BusEvent.read 2],
          writeOutcome := none, readOutcome := Except.ok b },
        calculate_relative_humidity (bigEndianRead16 b.1 b.2)) ∧
    Si7021.temperature_celsius (stubDevice ε) (Si7021.new (stubInit b)) =
      Except.ok (Si7021.new
        { log := [BusEvent.write [MEASURE_TEMPERATURE], BusEvent.read 2],
          writeOutcome := none, readOutcome := Except.ok b },
        calculate_temperature (bigEndianRead16 b.1 b.2)) ∧
    Si7021.last_temperature (stubDevice ε) (Si7021.new (stubInit b)) =
      Except.ok (Si7021.new
        { log := [BusEvent.write [READ_TEMPERATURE], BusEvent.read 2],
          writeOutcome := none, readOutcome := Except.ok b },
        calculate_temperature (bigEndianRead16 b.1 b.2)) ∧
    (∀ e : ε,
      Si7021.relative_humidity (stubDevice ε) (Si7021.new
        { log := [], writeOutcome := none, readOutcome := Except.error e }) =
        Except.error e ∧
      Si7021.temperature_celsius (stubDevice ε) (Si7021.new
        { log := [], writeOutcome := none, readOutcome := Except.error e }) =
        Except.error e ∧
      Si7021.last_temperature (stubDevice ε) (Si7021.new
        { log := [], writeOutcome := none, readOutcome := Except.error e }) =
        Except.error e) :=
  ⟨rfl, rfl, rfl, fun _ => ⟨rfl, rfl, rfl⟩⟩

/-- C6: whenever the command write succeeds and the two-byte read returns
the byte pair `(b0, b1)`, the driver decodes the raw reading as the
big-endian unsigned 16-bit integer `256 * b0 + b1`, before any conversion
function is applied. -/
theorem big_endian_decode {σ ε : Type} (impl : I2CDevice σ ε)
    (self : Si7021 σ) (c : Nat) (d1 d2 : σ) (b0 b1 : Fin 256)
    (h1 : impl.write self.device [c] = Except.ok d1)
    (h2 : impl.read2 d1 = Except.ok (d2, b0, b1)) :
    Si7021.read_word impl self c =
      Except.ok (Si7021.new d2, 256 * b0.val + b1.val) := by
  simp [Si7021.read_word, h1, h2, bigEndianRead16]

/-- C6 witness: the stub programmed with the response bytes (18, 52) decodes
to the raw reading 4660. -/
theorem big_endian_decode_witness :
    Si7021.read_word (stubDevice Unit)
        (Si7021.new (stubInit ((18 : Fin 256), (52 : Fin 256))))
        MEASURE_RELATIVE_HUMIDITY =
      Except.ok (Si7021.new
        { log := [BusEvent.write [MEASURE_RELATIVE_HUMIDITY], BusEvent.read 2],
          writeOutcome := none,
          readOutcome := Except.ok ((18 : Fin 256), (52 : Fin 256)) },
        4660) := by
  exact big_endian_decode (stubDevice Unit)
    (Si7021.new (stubInit ((18 : Fin 256), (52 : Fin 256))))
    MEASURE_RELATIVE_HUMIDITY
    { log := [BusEvent.write [MEASURE_RELATIVE_HUMIDITY]],
      writeOutcome := none,
      readOutcome := Except.ok ((18 : Fin 256), (52 : Fin 256)) }
    { log := [BusEvent.write [MEASURE_RELATIVE_HUMIDITY], BusEvent.read 2],
      writeOutcome := none,
      readOutcome := Except.ok ((18 : Fin 256), (52 : Fin 256)) }
    18 52 rfl rfl

/-- C7: `Si7021.new` performs no transport operation and never fails (it is
a total function of the handle alone), the wrapped handle is the driver's
only state: `device` recovers the handle, every driver value is the wrapping
of its handle, and wrapping is a bijection between handles and drivers. -/
theorem construct_pure_wrap {σ : Type} :
    (∀ d : σ, (Si7021.new d).device = d) ∧
    (∀ x : Si7021 σ, Si7021.new x.device = x) ∧
    Function.Bijective (Si7021.new : σ → Si7021 σ) :=
  ⟨fun _ => rfl, fun _ => rfl,
    fun _ _ h => congrArg Si7021.device h, fun x => ⟨x.device, rfl⟩⟩

/-- Helper: dispatching on `read_word` and converting the decoded word is
the same as the spec-side primitive-plus-conversion composition. -/
theorem match_read_word_eq_spec {σ ε : Type} (impl : I2CDevice σ ε)
    (self : Si7021 σ) (c : Nat) (conv : Nat → ℚ) :
    (match Si7021.read_word impl self c with
     | Except.error e => Except.error e
     | Except.ok (self1, raw) => Except.ok (self1, conv raw)) =
      measurementSpec impl c conv self := by
  unfold measurementSpec Si7021.read_word
  cases hw : impl.write self.device [c] with
  | error e => simp [Except.bind]
  | ok d1 =>
    cases hr : impl.read2 d1 with
    | error e => simp [Except.bind, hr]
    | ok r =>
      obtain ⟨d2, b0, b1⟩ := r
      simp [Except.bind, hr, bigEndianRead16]

/-- C8: each public measurement operation equals the shared
command/response primitive composed with its pure conversion function; the
three operations differ only in the command byte sent and the conversion
applied to the decoded word. -/
theorem operations_refine_shared_primitive {σ ε : Type}
    (impl : I2CDevice σ ε) (self : Si7021 σ) :
    Si7021.relative_humidity impl self =
      measurementSpec impl MEASURE_RELATIVE_HUMIDITY
        calculate_relative_humidity self ∧
    Si7021.temperature_celsius impl self =
      measurementSpec impl MEASURE_TEMPERATURE calculate_temperature self ∧
    Si7021.last_temperature impl self =
      measurementSpec impl READ_TEMPERATURE calculate_temperature self :=
  ⟨match_read_word_eq_spec impl self MEASURE_RELATIVE_HUMIDITY
      calculate_relative_humidity,
   match_read_word_eq_spec impl self MEASURE_TEMPERATURE
      calculate_temperature,
   match_read_word_eq_spec impl self READ_TEMPERATURE
      calculate_temperature⟩

/-- Drop the returned driver state of a raw `read_word` result, keeping only
the decoded word or the transport error. -/
def wordValue {σ ε : Type} (r : Except ε (Si7021 σ × Nat)) : Except ε Nat :=
  match r with
  | Except.error e => Except.error e
  | Except.ok (_, w) => Except.ok w

/-- C5: for every measurement operation, a failing transport write makes the
operation return exactly that error without consulting the read operation at
all (the result is the same error for every possible read implementation),
and a failing read after a successful write makes the operation return
exactly that error; the error value is propagated unchanged. -/
theorem transport_error_propagation {σ ε : Type} (impl : I2CDevice σ ε)
    (self : Si7021 σ) (e : ε) :
    ((impl.write self.device [MEASURE_RELATIVE_HUMIDITY] = Except.error e →
       (∀ r2, Si7021.relative_humidity { impl with read2 := r2 } self =
         Except.error e) ∧
       Si7021.relative_humidity impl self = Except.error e) ∧
     (∀ d1, impl.write self.device [MEASURE_RELATIVE_HUMIDITY] =
         Except.ok d1 →
       impl.read2 d1 = Except.error e →
       Si7021.relative_humidity impl self = Except.error e)) ∧
    ((impl.write self.device [MEASURE_TEMPERATURE] = Except.error e →
       (∀ r2, Si7021.temperature_celsius { impl with read2 := r2 } self =
         Except.error e) ∧
       Si7021.temperature_celsius impl self = Except.error e) ∧
     (∀ d1, impl.write self.device [MEASURE_TEMPERATURE] = Except.ok d1 →
       impl.read2 d1 = Except.error e →
       Si7021.temperature_celsius impl self = Except.error e)) ∧
    ((impl.write self.device [READ_TEMPERATURE] = Except.error e →
       (∀ r2, Si7021.last_temperature { impl with read2 := r2 } self =
         Except.error e) ∧
       Si7021.last_temperature impl self = Except.error e) ∧
     (∀ d1, impl.write self.device [READ_TEMPERATURE] = Except.ok d1 →
       impl.read2 d1 = Except.error e →
       Si7021.last_temperature impl self = Except.error e)) := by
  refine ⟨⟨fun h => ⟨fun r2 => ?_, ?_⟩, fun d1 h1 h2 => ?_⟩,
          ⟨fun h => ⟨fun r2 => ?_, ?_⟩, fun d1 h1 h2 => ?_⟩,
          ⟨fun h => ⟨fun r2 => ?_, ?_⟩, fun d1 h1 h2 => ?_⟩⟩
  · simp [Si7021.relative_humidity, read_word_write_error
      { impl with read2 := r2 } self MEASURE_RELATIVE_HUMIDITY e h]
  · simp [Si7021.relative_humidity,
      read_word_write_error impl self MEASURE_RELATIVE_HUMIDITY e h]
  · simp [Si7021.relative_humidity,
      read_word_read_error impl self MEASURE_RELATIVE_HUMIDITY d1 e h1 h2]
  · simp [Si7021.temperature_celsius, read_word_write_error
      { impl with read2 := r2 } self MEASURE_TEMPERATURE e h]
  · simp [Si7021.temperature_celsius,
      read_word_write_error impl self MEASURE_TEMPERATURE e h]
  · simp [Si7021.temperature_celsius,
      read_word_read_error impl self MEASURE_TEMPERATURE d1 e h1 h2]
  · simp [Si7021.last_temperature, read_word_write_error
      { impl with read2 := r2 } self READ_TEMPERATURE e h]
  · simp [Si7021.last_temperature,
      read_word_write_error impl self READ_TEMPERATURE e h]
  · simp [Si7021.last_temperature,
      read_word_read_error impl self READ_TEMPERATURE d1 e h1 h2]

/-- C5 witness: a stub whose write fails with the unit error makes
`relative_humidity` return exactly that error. -/
theorem transport_error_propagation_witness :
    Si7021.relative_humidity (stubDevice Unit)
      (Si7021.new { log := [], writeOutcome := some (),
                    readOutcome := Except.error () }) = Except.error () :=
  ((transport_error_propagation (stubDevice Unit)
      (Si7021.new { log := [], writeOutcome := some (),
                    readOutcome := Except.error () }) ()).1.1 rfl).2

/-- C10: each measurement operation is deterministic with respect to the
transport: two runs against transports (over possibly different state
types) that return identical outcomes produce identical measurement
results. -/
theorem operations_deterministic {σ1 σ2 ε : Type} (impl1 : I2CDevice σ1 ε)
    (d1 : σ1) (impl2 : I2CDevice σ2 ε) (d2 : σ2) :
    (sameOutcomes impl1 d1 impl2 d2 MEASURE_RELATIVE_HUMIDITY →
      resultValue (Si7021.relative_humidity impl1 (Si7021.new d1)) =
      resultValue (Si7021.relative_humidity impl2 (Si7021.new d2))) ∧
    (sameOutcomes impl1 d1 impl2 d2 MEASURE_TEMPERATURE →
      resultValue (Si7021.temperature_celsius impl1 (Si7021.new d1)) =
      resultValue (Si7021.temperature_celsius impl2 (Si7021.new d2))) ∧
    (sameOutcomes impl1 d1 impl2 d2 READ_TEMPERATURE →
      resultValue (Si7021.last_temperature impl1 (Si7021.new d1)) =
      resultValue (Si7021.last_temperature impl2 (Si7021.new d2))) := by
  refine ⟨fun h => ?_, fun h => ?_, fun h => ?_⟩ <;>
  · rcases h with ⟨e, h1, h2⟩ | ⟨t1, t2, h1, h2, hrest⟩
    · simp [Si7021.relative_humidity, Si7021.temperature_celsius,
        Si7021.last_temperature, Si7021.read_word, Si7021.new, resultValue,
        h1, h2]
    · rcases hrest with ⟨e, r1, r2⟩ | ⟨u1, u2, b, r1, r2⟩ <;>
        simp [Si7021.relative_humidity, Si7021.temperature_celsius,
          Si7021.last_temperature, Si7021.read_word, Si7021.new, resultValue,
          bigEndianRead16, h1, h2, r1, r2]

/-- C10 witness: two stub transports with different pre-existing logs but
the same programmed response (7, 9) give the same humidity result. -/
theorem operations_deterministic_witness :
    resultValue (Si7021.relative_humidity (stubDevice Unit)
      (Si7021.new (stubInit ((7 : Fin 256), (9 : Fin 256))))) =
    resultValue (Si7021.relative_humidity (stubDevice Unit)
      (Si7021.new { log := [BusEvent.read 2], writeOutcome := none,
                    readOutcome := Except.ok ((7 : Fin 256), (9 : Fin 256)) })) :=
  (operations_deterministic (stubDevice Unit)
      (stubInit ((7 : Fin 256), (9 : Fin 256)))
      (stubDevice Unit)
      { log := [BusEvent.read 2], writeOutcome := none,
        readOutcome := Except.ok ((7 : Fin 256), (9 : Fin 256)) }).1
    (Or.inr ⟨_, _, rfl, rfl, Or.inr ⟨_, _, _, rfl, rfl⟩⟩)
